import Mathlib

/-!
Verification development for the interest-rate library in
src/interest_rate_prod.py.  The two Python classes, ZCB_curve and FRA, are
embedded shallowly: real-valued float arithmetic becomes exact arithmetic on
the real numbers, a parsed YYYY-MM-DD date string becomes its day number (an
integer; the difference of two day numbers is the .days of the datetime
difference in the source), and every operation that can fail an assert or
raise becomes a function into Except String.  The distinct failure modes of
the source are kept apart through the error strings: a failed assert is
AssertionError, calling the None returned by get_curve for an unsupported
interpolation method is TypeError, and reading the variable tdt when it was
never assigned is UnboundLocalError.
-/

noncomputable section

/-- The rate-kind string used by the source for zero-coupon yields. -/
def yieldKind : String := "yield"

/-- The rate-kind string used by the source for discount factors. -/
def dfKind : String := "discount factor"

/-- The only interpolation method implemented by the source. -/
def linearInterp : String := "linear"

/-- An interpolation method the source does not implement. -/
def cubicInterp : String := "cubic"

/-- Error string standing for a failed Python assert. -/
def assertionError : String := "AssertionError"

/-- Error string standing for a raised Python TypeError. -/
def typeError : String := "TypeError"

/-- Error string standing for a Python UnboundLocalError. -/
def unboundLocalError : String := "UnboundLocalError"

/-- Both classes of the source define DAYS_IN_YEAR = 365. -/
def DAYS_IN_YEAR : ℝ := 365

/-- Day number of a calendar date (days since 1970-01-01), so that
subtracting two day numbers gives the .days of the Python datetime
difference.  Standard civil-calendar algorithm, valid for years of the
common era with 1 <= m <= 12. -/
def daysFromCivil (y m d : ℕ) : ℤ :=
  let yAdj := if m ≤ 2 then y - 1 else y
  let era := yAdj / 400
  let yoe := yAdj % 400
  let mp := (m + 9) % 12
  let doy := (153 * mp + 2) / 5 + d - 1
  let doe := yoe * 365 + yoe / 4 - yoe / 100 + doy
  (era : ℤ) * 146097 + (doe : ℤ) - 719468

/-- A t or T argument of the curve methods: either a date string (already
parsed to its day number) or a number. -/
inductive TimeArg where
  | date (d : ℤ)
  | num (x : ℝ)

/-- The t argument of FRA.get_value: a number, a date string, or a value of
any other type (which makes the source raise TypeError). -/
inductive ValArg where
  | date (d : ℤ)
  | num (x : ℝ)
  | other

/-- State of a ZCB_curve object after construction: reference date t (day
number), maturities T_s, stored rates r_s, the normalized rate kind, the
compounding frequency, and the stored discount factors dcf. -/
structure ZCB_curve where
  t : ℤ
  T_s : List ℝ
  r_s : List ℝ
  r_s_type : String
  compounding : ℝ
  dcf : List ℝ

/-- One component of the yield branch of ZCB_curve.__init__:
1/(1+r*compounding/100)**(T/compounding) when compounding is nonzero and
exp(-r*T/100) when it is zero. -/
def yieldToDcf (compounding T r : ℝ) : ℝ :=
  if compounding ≠ 0 then 1 / (1 + r * compounding / 100) ^ (T / compounding)
  else Real.exp (-r * T / 100)

/-- One component of the discount-factor branch of ZCB_curve.__init__:
((1/p)**(compounding/T) - 1)/compounding when compounding is nonzero and
log(1/p)/T when it is zero. -/
def dcfToYield (compounding T p : ℝ) : ℝ :=
  if compounding ≠ 0 then ((1 / p) ^ (compounding / T) - 1) / compounding
  else Real.log (1 / p) / T

/-- ZCB_curve.__init__.  The two asserts (equal lengths, recognized rate
kind) become AssertionError; the yield branch computes dcf from r_s and the
discount-factor branch stores the input as dcf, rewrites r_s_type to yield,
and backs out r_s elementwise. -/
def ZCB_curve.init (t : ℤ) (T_s r_s : List ℝ) (r_s_type : String)
    (compounding : ℝ) : Except String ZCB_curve :=
  if T_s.length = r_s.length then
    if r_s_type = yieldKind ∨ r_s_type = dfKind then
      if r_s_type = yieldKind then
        .ok { t := t, T_s := T_s, r_s := r_s, r_s_type := r_s_type,
              compounding := compounding,
              dcf := List.zipWith (yieldToDcf compounding) T_s r_s }
      else
        .ok { t := t, T_s := T_s,
              r_s := List.zipWith (dcfToYield compounding) T_s r_s,
              r_s_type := yieldKind, compounding := compounding, dcf := r_s }
    else .error assertionError
  else .error assertionError

/-- np.interp on a list of (x, y) knot pairs with the x components sorted
increasingly: clamp below the first knot and above the last knot, linear
interpolation in between. -/
def interpPts (x : ℝ) : List (ℝ × ℝ) → ℝ
  | [] => 0
  | [p] => p.2
  | p :: q :: rest =>
      if x ≤ p.1 then p.2
      else if x ≤ q.1 then p.2 + (q.2 - p.2) * (x - p.1) / (q.1 - p.1)
      else interpPts x (q :: rest)

/-- np.interp(x, xp, fp). -/
def interp (x : ℝ) (xp fp : List ℝ) : ℝ := interpPts x (xp.zip fp)

/-- The lambda returned by get_curve for which = yield. -/
def ZCB_curve.yieldFun (c : ZCB_curve) : ℝ → ℝ := fun x => interp x c.T_s c.r_s

/-- The lambda returned by get_curve for which = discount factor. -/
def ZCB_curve.dcfFun (c : ZCB_curve) : ℝ → ℝ := fun x => interp x c.T_s c.dcf

/-- ZCB_curve.get_curve: asserts the which argument is recognized, returns
some interpolator for the linear method, and returns None (here: ok none)
for every other interpolation method after printing a message. -/
def ZCB_curve.get_curve (c : ZCB_curve) (interpo which : String) :
    Except String (Option (ℝ → ℝ)) :=
  if which = yieldKind ∨ which = dfKind then
    if interpo = linearInterp then
      if which = yieldKind then .ok (some c.yieldFun) else .ok (some c.dcfFun)
    else .ok none
  else .error assertionError

/-- Day-number difference scaled to years, i.e. (d - ref).days/DAYS_IN_YEAR. -/
def toYears (ref d : ℤ) : ℝ := ((d - ref : ℤ) : ℝ) / DAYS_IN_YEAR

/-- The t-argument normalization shared by get_discount_factor and
get_forward_rate: a date is checked against the reference date and turned
into a year offset (remembering the parsed date tdt), a number is checked
to be nonnegative. -/
def resolve_t (c : ZCB_curve) (t : TimeArg) : Except String (ℝ × Option ℤ) :=
  match t with
  | .date d => if c.t ≤ d then .ok (toYears c.t d, some d) else .error assertionError
  | .num x => if 0 ≤ x then .ok (x, none) else .error assertionError

/-- The T-argument normalization shared by get_discount_factor and
get_forward_rate.  In the date branch the source compares against the local
variable tdt, which was assigned only when t itself was a date string; when
t was numeric the comparison raises UnboundLocalError. -/
def resolve_T (c : ZCB_curve) (tn : ℝ) (tdt : Option ℤ) (T : TimeArg) :
    Except String ℝ :=
  match T with
  | .date D =>
    match tdt with
    | none => .error unboundLocalError
    | some td => if td ≤ D then .ok (toYears c.t D) else .error assertionError
  | .num X => if tn < X then .ok X else .error assertionError

/-- ZCB_curve.get_discount_factor: normalize t and T, build the
discount-factor interpolator, and return curve(T)/curve(t).  When the
interpolation method is unsupported, get_curve returns None and the call
curve(T) raises TypeError. -/
def ZCB_curve.get_discount_factor (c : ZCB_curve) (t T : TimeArg)
    (interpo : String) : Except String ℝ :=
  match resolve_t c t with
  | .error e => .error e
  | .ok (tn, tdt) =>
    match resolve_T c tn tdt T with
    | .error e => .error e
    | .ok Tn =>
      match c.get_curve interpo dfKind with
      | .error e => .error e
      | .ok none => .error typeError
      | .ok (some curve) => .ok (curve Tn / curve tn)

/-- ZCB_curve.get_forward_rate: normalize t and T, build the yield
interpolator, and apply the periodic or continuous forward-rate formula of
the source. -/
def ZCB_curve.get_forward_rate (c : ZCB_curve) (t T : TimeArg)
    (interpo : String) (compounding : ℝ) : Except String ℝ :=
  match resolve_t c t with
  | .error e => .error e
  | .ok (tn, tdt) =>
    match resolve_T c tn tdt T with
    | .error e => .error e
    | .ok Tn =>
      match c.get_curve interpo yieldKind with
      | .error e => .error e
      | .ok none => .error typeError
      | .ok (some curve) =>
        if compounding ≠ 0 then
          .ok (((((1 + compounding * curve Tn) ^ (Tn / compounding)) /
                ((1 + compounding * curve tn) ^ (tn / compounding)))
                  ^ (compounding / (Tn - tn)) - 1) / compounding)
        else
          .ok (Real.log (Real.exp (curve Tn * Tn - curve tn * tn)) / (Tn - tn))

/-- State of an FRA object after construction: accrual fraction tau,
notional N, compounding label, the date forms dtt, dtT, dtS (day numbers),
the numeric forms T and S exactly as stored by the source, and the fair
rate K. -/
structure FRA where
  tau : ℝ
  N : ℝ
  compounding : ℝ
  dtt : ℤ
  dtT : ℤ
  dtS : ℤ
  T : ℝ
  S : ℝ
  K : ℝ

/-- The part of FRA.__init__ after the type dispatch on T and S: assert
dtT < dtS, assert the curve is anchored at the inception date, and compute
K = (cur(T/365)/cur(S/365) - 1)/tau from the discount-factor interpolator
of the construction curve. -/
def FRA.initCore (t dT dS : ℤ) (Tn Sn tau N : ℝ) (zc : ZCB_curve)
    (compounding : ℝ) : Except String FRA :=
  if dT < dS then
    if t = zc.t then
      match zc.get_curve linearInterp dfKind with
      | .error e => .error e
      | .ok none => .error typeError
      | .ok (some cur) =>
        .ok { tau := tau, N := N, compounding := compounding,
              dtt := t, dtT := dT, dtS := dS, T := Tn, S := Sn,
              K := (cur (Tn / DAYS_IN_YEAR) / cur (Sn / DAYS_IN_YEAR) - 1) / tau }
    else .error assertionError
  else .error assertionError

/-- FRA.__init__.  The first assert rejects T and S of different types.
In the date branch the numeric forms are (dtT - dtt).days/365 and
(dtS - dtt).days/365 and tau is recomputed from the dates; in the numeric
branch the dates are dtt + timedelta(days=T) (whole days, hence the floor)
and the caller-supplied tau is checked against (S - T)/365. -/
def FRA.init (t : ℤ) (T S : TimeArg) (tau N : ℝ) (ZCB_init : ZCB_curve)
    (compounding : ℝ) : Except String FRA :=
  match T, S with
  | .date dT, .date dS =>
    FRA.initCore t dT dS (toYears t dT) (toYears t dS)
      (((dS - dT : ℤ) : ℝ) / DAYS_IN_YEAR) N ZCB_init compounding
  | .num nT, .num nS =>
    if tau = (nS - nT) / 365 then
      FRA.initCore t (t + ⌊nT⌋) (t + ⌊nS⌋) nT nS tau N ZCB_init compounding
    else .error assertionError
  | _, _ => .error assertionError

/-- FRA.get_price. -/
def FRA.get_price (f : FRA) : ℝ := f.K

/-- FRA.set_price. -/
def FRA.set_price (f : FRA) (K : ℝ) : FRA := { f with K := K }

/-- Example curve state used in concrete evaluations: reference date 0, a
single maturity 1 with stored discount factor 9/10. -/
def zcW : ZCB_curve :=
  { t := 0, T_s := [1], r_s := [0], r_s_type := yieldKind, compounding := 1/2,
    dcf := [9/10] }

/-- The FRA produced from zcW with inception 0 and date arguments 92 and
183 (day numbers): tau = 91/365, year-offset forms 92/365 and 183/365, and
fair rate K = 0 because the dcf interpolator of zcW is constant. -/
def fW : FRA :=
  { tau := 91/365, N := 1000000, compounding := 1/2, dtt := 0, dtT := 92,
    dtS := 183, T := 92/365, S := 183/365, K := 0 }

/-- Curve built from the single yield 5 percent at maturity 1 with
continuous compounding. -/
def curveY5 : ZCB_curve :=
  { t := 0, T_s := [1], r_s := [5], r_s_type := yieldKind, compounding := 0,
    dcf := List.zipWith (yieldToDcf 0) [1] [5] }

/-- Curve with yields 5 and 6 percent at maturities 1 and 2, continuous
compounding: the spec example for the forward rate. -/
def c4curve : ZCB_curve :=
  { t := 0, T_s := [1, 2], r_s := [5, 6], r_s_type := yieldKind,
    compounding := 0, dcf := List.zipWith (yieldToDcf 0) [1, 2] [5, 6] }

/-- Day number of 2023-06-01. -/
def d2023_06_01 : ℤ := daysFromCivil 2023 6 1

/-- Day number of 2023-09-01. -/
def d2023_09_01 : ℤ := daysFromCivil 2023 9 1

/-- Day number of 2023-12-01. -/
def d2023_12_01 : ℤ := daysFromCivil 2023 12 1

/-- Curve anchored at 2023-06-01 with a single stored discount factor. -/
def c7zc : ZCB_curve :=
  { t := d2023_06_01, T_s := [1], r_s := [0], r_s_type := yieldKind,
    compounding := 1/2, dcf := [9/10] }

/-- FRA.get_value: build the discount-factor interpolator of the valuation
curve, dispatch on the type of t (number, date string, or anything else,
the last raising TypeError), check the asserts of the source branch by
branch, and return N*tau*(f(t:T,S) - K). -/
def FRA.get_value (f : FRA) (t : ValArg) (ZCB : ZCB_curve) : Except String ℝ :=
  match ZCB.get_curve linearInterp dfKind with
  | .error e => .error e
  | .ok none => .error typeError
  | .ok (some ZCB_cur_t) =>
    match t with
    | .num x =>
      if x ≤ f.T then
        .ok (f.N * f.tau *
          ((ZCB_cur_t ((f.T - x) / DAYS_IN_YEAR) /
            ZCB_cur_t ((f.S - x) / DAYS_IN_YEAR) - 1) / f.tau - f.K))
      else .error assertionError
    | .date d =>
      if f.dtt ≤ d ∧ d ≤ f.dtT then
        .ok (f.N * f.tau *
          ((ZCB_cur_t ((f.T - toYears f.dtt d) / DAYS_IN_YEAR) /
            ZCB_cur_t ((f.S - toYears f.dtt d) / DAYS_IN_YEAR) - 1) / f.tau - f.K))
      else .error assertionError
    | .other => .error typeError

-- Helper lemmas ------------------------------------------------------------

lemma get_curve_linear_yield (c : ZCB_curve) :
    c.get_curve linearInterp yieldKind = .ok (some c.yieldFun) := rfl

lemma get_curve_linear_dcf (c : ZCB_curve) :
    c.get_curve linearInterp dfKind = .ok (some c.dcfFun) := rfl

lemma zcW_dcfFun (x : ℝ) : zcW.dcfFun x = 9 / 10 := rfl

lemma c7zc_dcfFun (x : ℝ) : c7zc.dcfFun x = 9 / 10 := rfl

lemma getD_zipWith (g : ℝ → ℝ → ℝ) :
    ∀ (as bs : List ℝ) (i : ℕ), i < as.length → i < bs.length →
      (List.zipWith g as bs).getD i 0 = g (as.getD i 0) (bs.getD i 0)
  | [], _, i, h, _ => by simp at h
  | _ :: _, [], i, _, h => by simp at h
  | _ :: _, _ :: _, 0, _, _ => rfl
  | _ :: as, _ :: bs, i + 1, h1, h2 => by
      simpa using getD_zipWith g as bs i (by simpa using h1) (by simpa using h2)

lemma ZCB_init_yield_elim {t : ℤ} {T_s r_s : List ℝ} {f : ℝ} {c : ZCB_curve}
    (hc : ZCB_curve.init t T_s r_s yieldKind f = .ok c) :
    c = { t := t, T_s := T_s, r_s := r_s, r_s_type := yieldKind,
          compounding := f, dcf := List.zipWith (yieldToDcf f) T_s r_s } ∧
      T_s.length = r_s.length := by
  unfold ZCB_curve.init at hc
  split at hc
  · split at hc
    · split at hc
      · injection hc with h
        exact ⟨h.symm, by assumption⟩
      · exact absurd rfl (by assumption)
    · exact absurd (Or.inl rfl) (by assumption)
  · exact Except.noConfusion hc

lemma FRA_initCore_elim {t dT dS : ℤ} {Tn Sn tau N comp : ℝ}
    {zc : ZCB_curve} {f : FRA}
    (hc : FRA.initCore t dT dS Tn Sn tau N zc comp = .ok f) :
    f = { tau := tau, N := N, compounding := comp, dtt := t, dtT := dT,
          dtS := dS, T := Tn, S := Sn,
          K := (zc.dcfFun (Tn / DAYS_IN_YEAR) / zc.dcfFun (Sn / DAYS_IN_YEAR)
                - 1) / tau } := by
  unfold FRA.initCore at hc
  rw [get_curve_linear_dcf] at hc
  split at hc
  · split at hc
    · injection hc with h
      exact h.symm
    · exact Except.noConfusion hc
  · exact Except.noConfusion hc

lemma FRA_init_K {t : ℤ} {T S : TimeArg} {tau N comp : ℝ} {zc : ZCB_curve}
    {f : FRA} (hc : FRA.init t T S tau N zc comp = .ok f) :
    f.K = (zc.dcfFun (f.T / DAYS_IN_YEAR) / zc.dcfFun (f.S / DAYS_IN_YEAR)
           - 1) / f.tau ∧ f.dtt = t := by
  cases T with
  | date dT =>
    cases S with
    | date dS =>
      simp only [FRA.init] at hc
      have h := FRA_initCore_elim hc
      subst h
      exact ⟨rfl, rfl⟩
    | num nS =>
      simp only [FRA.init] at hc
      exact Except.noConfusion hc
  | num nT =>
    cases S with
    | date dS =>
      simp only [FRA.init] at hc
      exact Except.noConfusion hc
    | num nS =>
      simp only [FRA.init] at hc
      split at hc
      · have h := FRA_initCore_elim hc
        subst h
        exact ⟨rfl, rfl⟩
      · exact Except.noConfusion hc

lemma fW_init : FRA.init 0 (.date 92) (.date 183) 0 1000000 zcW (1/2) = .ok fW := by
  show FRA.initCore 0 92 183 (toYears 0 92) (toYears 0 183)
      (((183 - 92 : ℤ) : ℝ) / DAYS_IN_YEAR) 1000000 zcW (1/2) = .ok fW
  unfold FRA.initCore
  rw [if_pos (by decide : (92:ℤ) < 183), if_pos (show (0:ℤ) = zcW.t from rfl),
    get_curve_linear_dcf]
  refine congrArg Except.ok ?_
  simp only [fW, FRA.mk.injEq, zcW_dcfFun, toYears, DAYS_IN_YEAR]
  norm_num

-- Claim theorems -----------------------------------------------------------

/-- C1: the spec claims that feeding the stored discount factors of a curve
back in as rate kind discount factor reproduces the original percent yields.
The code violates this: for the curve built from the 5 percent yield at
maturity 1 under continuous compounding, the re-derived stored yield is
1/20 = 0.05, the decimal rather than the percent figure, because the
back-out formula log(1/dcf)/T omits the factor 100. -/
theorem C1_roundtrip_code_eval :
    ∃ c1 c2 : ZCB_curve,
      ZCB_curve.init 0 [1] [5] yieldKind 0 = .ok c1 ∧
      ZCB_curve.init 0 [1] c1.dcf dfKind 0 = .ok c2 ∧
      c2.r_s = [1/20] ∧ (1/20 : ℝ) ≠ 5 := by
  refine ⟨_, _, rfl, rfl, ?_, by norm_num⟩
  show List.zipWith (dcfToYield 0) [1] (List.zipWith (yieldToDcf 0) [1] [5]) = [1/20]
  simp only [List.zipWith, dcfToYield, yieldToDcf]
  norm_num [Real.log_inv, Real.log_exp]

/-- C2: for an FRA whose K is the one computed at construction, valuing it
at inception (t = 0 as a number, or the inception date itself) against the
construction curve gives exactly 0, since the forward rate recomputed at
inception coincides with K. -/
theorem C2_value_at_inception (t : ℤ) (T S : TimeArg) (tau N comp : ℝ)
    (zc : ZCB_curve) (f : FRA)
    (hc : FRA.init t T S tau N zc comp = .ok f)
    (hT : 0 ≤ f.T) (hdT : f.dtt ≤ f.dtT) :
    f.get_value (.num 0) zc = .ok 0 ∧ f.get_value (.date f.dtt) zc = .ok 0 := by
  obtain ⟨hK, -⟩ := FRA_init_K hc
  have h0 : toYears f.dtt f.dtt = 0 := by simp [toYears]
  unfold FRA.get_value
  rw [get_curve_linear_dcf]
  constructor
  · show (if (0:ℝ) ≤ f.T then _ else _) = _
    rw [if_pos hT, sub_zero, sub_zero, hK, sub_self, mul_zero]
  · show (if f.dtt ≤ f.dtt ∧ f.dtt ≤ f.dtT then _ else _) = _
    rw [if_pos ⟨le_refl f.dtt, hdT⟩, h0, sub_zero, sub_zero, hK, sub_self,
      mul_zero]

/-- Witness for C2: the FRA fW built from zcW at inception day 0 values to
exactly 0 at time 0 and at the inception date. -/
theorem C2_value_at_inception_witness :
    FRA.get_value fW (.num 0) zcW = .ok 0 ∧
    FRA.get_value fW (.date 0) zcW = .ok 0 := by
  have h := C2_value_at_inception 0 (.date 92) (.date 183) 0 1000000 (1/2)
    zcW fW fW_init (by norm_num [fW]) (by norm_num [fW])
  simpa [fW] using h

/-- C3: for a curve built with rate kind yield, the stored discount factor
at each index equals (1 + r*f/100)^(-T/f) when the compounding frequency f
is nonzero (the source computes the equal value 1/(1+r*f/100)^(T/f); the
two coincide for a nonnegative base, which is the hypothesis under which
the float power of the source is defined at all) and exp(-r*T/100) when
f = 0. -/
theorem C3_dcf_formula (t : ℤ) (T_s r_s : List ℝ) (f : ℝ) (c : ZCB_curve)
    (hc : ZCB_curve.init t T_s r_s yieldKind f = .ok c) (i : ℕ)
    (hi : i < T_s.length)
    (hbase : f ≠ 0 → 0 ≤ 1 + r_s.getD i 0 * f / 100) :
    c.dcf.getD i 0 =
      if f ≠ 0 then (1 + r_s.getD i 0 * f / 100) ^ (-(T_s.getD i 0 / f))
      else Real.exp (-(r_s.getD i 0 * T_s.getD i 0 / 100)) := by
  obtain ⟨hcEq, hlen⟩ := ZCB_init_yield_elim hc
  subst hcEq
  show (List.zipWith (yieldToDcf f) T_s r_s).getD i 0 = _
  rw [getD_zipWith (yieldToDcf f) T_s r_s i hi (hlen ▸ hi)]
  unfold yieldToDcf
  by_cases hf : f = 0
  · rw [if_neg (fun h => h hf), if_neg (fun h => h hf), neg_mul, neg_div]
  · rw [if_pos hf, if_pos hf, Real.rpow_neg (hbase hf), one_div]

/-- Witness for C3: the concrete continuous-compounding curve from the
5 percent yield at maturity 1 stores the discount factor exp(-5*1/100). -/
theorem C3_dcf_formula_witness :
    ZCB_curve.init 0 [1] [5] yieldKind 0 = .ok curveY5 ∧
    curveY5.dcf.getD 0 0 = Real.exp (-((5:ℝ) * 1 / 100)) := by
  refine ⟨rfl, ?_⟩
  have h := C3_dcf_formula 0 [1] [5] 0 curveY5 rfl 0 (by norm_num)
    (fun hf => absurd rfl hf)
  simpa using h

/-- C4: for every curve and numeric 0 <= t < T, the forward rate at
compounding frequency 0 is (y(T)*T - y(t)*t)/(T - t) where y is the linear
yield interpolator of the curve. -/
theorem C4_forward_rate_continuous (c : ZCB_curve) (t T : ℝ)
    (h0 : 0 ≤ t) (hlt : t < T) :
    c.get_forward_rate (.num t) (.num T) linearInterp 0 =
      .ok ((c.yieldFun T * T - c.yieldFun t * t) / (T - t)) := by
  simp [ZCB_curve.get_forward_rate, resolve_t, resolve_T,
    get_curve_linear_yield, h0, hlt, Real.log_exp]

/-- Witness for C4: the curve with continuous yields y(1) = 5 and y(2) = 6
gives forward rate (6*2 - 5*1)/1 = 7 between times 1 and 2. -/
theorem C4_forward_rate_continuous_witness :
    c4curve.get_forward_rate (.num 1) (.num 2) linearInterp 0 = .ok 7 := by
  rw [C4_forward_rate_continuous c4curve 1 2 (by norm_num) (by norm_num)]
  have h1 : c4curve.yieldFun 1 = 5 := by
    show interp 1 [1, 2] [5, 6] = 5
    norm_num [interp, interpPts]
  have h2 : c4curve.yieldFun 2 = 6 := by
    show interp 2 [1, 2] [5, 6] = 6
    norm_num [interp, interpPts]
  rw [h1, h2]
  norm_num

/-- C5 counterexample: the claim says get_discount_factor fails whenever T
is not strictly greater than t also in the date-string form, but the date
branch of the source asserts tdt <= Tdt, so two equal dates are accepted
and the curve returns 1 instead of failing. -/
theorem C5_equal_dates_accepted :
    ZCB_curve.get_discount_factor zcW (.date 0) (.date 0) linearInterp = .ok 1 := by
  show Except.ok ((9/10 : ℝ) / (9/10)) = Except.ok 1
  norm_num

/-- C5 (amended): get_discount_factor fails on a negative numeric t, on a
numeric T less than or equal to t, on a t date before the reference date,
on a T date strictly before the t date, and hence on a T date before the
reference date; but in the date form a T equal to t is accepted, so only a
strictly earlier T date fails there. -/
theorem C5_dcf_preconditions (c : ZCB_curve) (interpo : String) (x X : ℝ)
    (d D : ℤ) :
    (x < 0 → ZCB_curve.get_discount_factor c (.num x) (.num X) interpo
      = .error assertionError) ∧
    (X ≤ x → ZCB_curve.get_discount_factor c (.num x) (.num X) interpo
      = .error assertionError) ∧
    (d < c.t → ZCB_curve.get_discount_factor c (.date d) (.date D) interpo
      = .error assertionError) ∧
    (D < d → ZCB_curve.get_discount_factor c (.date d) (.date D) interpo
      = .error assertionError) ∧
    (D < c.t → ZCB_curve.get_discount_factor c (.date d) (.date D) interpo
      = .error assertionError) ∧
    (c.t ≤ d → ZCB_curve.get_discount_factor c (.date d) (.date d) linearInterp
      = .ok (c.dcfFun (toYears c.t d) / c.dcfFun (toYears c.t d))) := by
  refine ⟨fun h => ?_, fun h => ?_, fun h => ?_, fun h => ?_, fun h => ?_,
    fun h => ?_⟩
  · simp [ZCB_curve.get_discount_factor, resolve_t, not_le.mpr h]
  · by_cases h0 : 0 ≤ x
    · simp [ZCB_curve.get_discount_factor, resolve_t, resolve_T, h0,
        not_lt.mpr h]
    · simp [ZCB_curve.get_discount_factor, resolve_t, h0]
  · simp [ZCB_curve.get_discount_factor, resolve_t, not_le.mpr h]
  · by_cases hd : c.t ≤ d
    · simp [ZCB_curve.get_discount_factor, resolve_t, resolve_T, hd,
        not_le.mpr h]
    · simp [ZCB_curve.get_discount_factor, resolve_t, hd]
  · by_cases hd : c.t ≤ d
    · simp [ZCB_curve.get_discount_factor, resolve_t, resolve_T, hd,
        not_le.mpr (lt_of_lt_of_le h hd)]
    · simp [ZCB_curve.get_discount_factor, resolve_t, hd]
  · simp [ZCB_curve.get_discount_factor, resolve_t, resolve_T, h,
      get_curve_linear_dcf]

/-- Witness for C5 (amended): each listed failure and the accepted
equal-dates query, at concrete inputs on the curve zcW. -/
theorem C5_dcf_preconditions_witness :
    ZCB_curve.get_discount_factor zcW (.num (-1)) (.num 1) linearInterp
      = .error assertionError ∧
    ZCB_curve.get_discount_factor zcW (.num 1) (.num 1) linearInterp
      = .error assertionError ∧
    ZCB_curve.get_discount_factor zcW (.date (-3)) (.date 5) linearInterp
      = .error assertionError ∧
    ZCB_curve.get_discount_factor zcW (.date 2) (.date 1) linearInterp
      = .error assertionError ∧
    ZCB_curve.get_discount_factor zcW (.date 2) (.date (-1)) linearInterp
      = .error assertionError ∧
    ZCB_curve.get_discount_factor zcW (.date 0) (.date 0) linearInterp
      = .ok (zcW.dcfFun (toYears zcW.t 0) / zcW.dcfFun (toYears zcW.t 0)) :=
  ⟨(C5_dcf_preconditions zcW linearInterp (-1) 1 0 0).1 (by norm_num),
   (C5_dcf_preconditions zcW linearInterp 1 1 0 0).2.1 (by norm_num),
   (C5_dcf_preconditions zcW linearInterp 0 0 (-3) 5).2.2.1 (by decide),
   (C5_dcf_preconditions zcW linearInterp 0 0 2 1).2.2.2.1 (by decide),
   (C5_dcf_preconditions zcW linearInterp 0 0 2 (-1)).2.2.2.2.1 (by decide),
   (C5_dcf_preconditions zcW linearInterp 0 0 0 0).2.2.2.2.2 (by decide)⟩

/-- C6 counterexample: the claim says get_value fails for every numeric t
earlier than inception (t < 0), but the numeric branch of the source only
asserts t <= T, so t = -1 is accepted and a value is returned. -/
theorem C6_negative_time_accepted :
    FRA.get_value fW (.num (-1)) zcW = .ok 0 := by
  unfold FRA.get_value
  rw [get_curve_linear_dcf]
  show (if (-1 : ℝ) ≤ fW.T then _ else _) = _
  rw [if_pos (by norm_num [fW] : (-1 : ℝ) ≤ fW.T)]
  show Except.ok (fW.N * fW.tau * ((9/10 / (9/10 : ℝ) - 1) / fW.tau - fW.K))
    = Except.ok 0
  norm_num [fW]

/-- C6 (amended): get_value raises TypeError when t is neither a number
nor a date; the date form enforces the full window [inception, T]; the
numeric form checks only the upper bound t <= T, and accepts every numeric
t below it, including negative t. -/
theorem C6_value_preconditions (f : FRA) (zc : ZCB_curve) (x : ℝ) (d : ℤ) :
    (FRA.get_value f .other zc = .error typeError) ∧
    (f.T < x → FRA.get_value f (.num x) zc = .error assertionError) ∧
    (x ≤ f.T → FRA.get_value f (.num x) zc =
      .ok (f.N * f.tau * ((zc.dcfFun ((f.T - x) / DAYS_IN_YEAR) /
        zc.dcfFun ((f.S - x) / DAYS_IN_YEAR) - 1) / f.tau - f.K))) ∧
    (d < f.dtt ∨ f.dtT < d →
      FRA.get_value f (.date d) zc = .error assertionError) := by
  refine ⟨?_, fun h => ?_, fun h => ?_, fun h => ?_⟩
  · simp [FRA.get_value, get_curve_linear_dcf]
  · simp [FRA.get_value, get_curve_linear_dcf, not_le.mpr h]
  · simp [FRA.get_value, get_curve_linear_dcf, h]
  · have hw : ¬(f.dtt ≤ d ∧ d ≤ f.dtT) := by
      rcases h with h | h
      · exact fun hh => absurd hh.1 (not_le.mpr h)
      · exact fun hh => absurd hh.2 (not_le.mpr h)
    simp [FRA.get_value, get_curve_linear_dcf, hw]

/-- Witness for C6 (amended): the four behaviors at concrete inputs on the
FRA fW and curve zcW. -/
theorem C6_value_preconditions_witness :
    FRA.get_value fW .other zcW = .error typeError ∧
    FRA.get_value fW (.num 1) zcW = .error assertionError ∧
    FRA.get_value fW (.num (-1)) zcW =
      .ok (fW.N * fW.tau * ((zcW.dcfFun ((fW.T - (-1)) / DAYS_IN_YEAR) /
        zcW.dcfFun ((fW.S - (-1)) / DAYS_IN_YEAR) - 1) / fW.tau - fW.K)) ∧
    FRA.get_value fW (.date (-5)) zcW = .error assertionError :=
  ⟨(C6_value_preconditions fW zcW 0 0).1,
   (C6_value_preconditions fW zcW 1 0).2.1 (by norm_num [fW]),
   (C6_value_preconditions fW zcW (-1) 0).2.2.1 (by norm_num [fW]),
   (C6_value_preconditions fW zcW 0 (-5)).2.2.2 (Or.inl (by decide))⟩

/-- C7: the date-string construction of an FRA stores T and S as year
offsets (day difference divided by 365), not as day offsets: for
inception 2023-06-01, maturity 2023-09-01 (92 days later) and settlement
2023-12-01 (183 days later), the date construction stores T = 92/365
while the day-offset construction for the same dates stores T = 92, and
92/365 is not 92.  The docstring of the source says T is kept in days. -/
theorem C7_date_vs_num_stored_T :
    (∃ fd : FRA,
       FRA.init d2023_06_01 (.date d2023_09_01) (.date d2023_12_01) 0 1000000
         c7zc (1/2) = .ok fd ∧ fd.T = 92 / 365) ∧
    (∃ fn : FRA,
       FRA.init d2023_06_01 (.num 92) (.num 183) (91/365) 1000000
         c7zc (1/2) = .ok fn ∧ fn.T = 92) ∧
    (92 / 365 : ℝ) ≠ 92 := by
  have h92 : ⌊(92 : ℝ)⌋ = 92 := by
    rw [show (92 : ℝ) = ((92 : ℤ) : ℝ) by norm_num, Int.floor_intCast]
  have h183 : ⌊(183 : ℝ)⌋ = 183 := by
    rw [show (183 : ℝ) = ((183 : ℤ) : ℝ) by norm_num, Int.floor_intCast]
  have hd : toYears d2023_06_01 d2023_09_01 = 92 / 365 := by
    have h : d2023_09_01 - d2023_06_01 = 92 := by decide
    unfold toYears
    rw [h, DAYS_IN_YEAR]
    norm_num
  have hn : FRA.init d2023_06_01 (.num 92) (.num 183) (91/365) 1000000 c7zc
      (1/2) = Except.ok
        { tau := 91/365, N := 1000000, compounding := 1/2,
          dtt := d2023_06_01, dtT := d2023_06_01 + ⌊(92 : ℝ)⌋,
          dtS := d2023_06_01 + ⌊(183 : ℝ)⌋, T := 92, S := 183,
          K := (c7zc.dcfFun ((92 : ℝ) / DAYS_IN_YEAR) /
                c7zc.dcfFun ((183 : ℝ) / DAYS_IN_YEAR) - 1) / (91/365) } := by
    simp only [FRA.init]
    rw [if_pos (by norm_num : (91/365 : ℝ) = (183 - 92) / 365)]
    unfold FRA.initCore
    rw [if_pos (by rw [h92, h183]; omega),
      if_pos (show d2023_06_01 = c7zc.t from rfl), get_curve_linear_dcf]
  exact ⟨⟨_, rfl, hd⟩, ⟨_, hn, rfl⟩, by norm_num⟩

/-- C8: constructing an FRA with T a date string and S a number, or the
other way around, fails the first assert of the constructor (type(T) ==
type(S)) before anything is computed. -/
theorem C8_mixed_types_rejected (t : ℤ) (dT : ℤ) (nS : ℝ) (tau N : ℝ)
    (zc : ZCB_curve) (comp : ℝ) :
    FRA.init t (.date dT) (.num nS) tau N zc comp = .error assertionError ∧
    FRA.init t (.num nS) (.date dT) tau N zc comp = .error assertionError :=
  ⟨rfl, rfl⟩

/-- C9 counterexample: with an unsupported interpolation method,
get_discount_factor is a hard failure, not a no-result signal: get_curve
returns None and the source then calls None, raising TypeError. -/
theorem C9_dcf_unsupported_raises :
    ZCB_curve.get_discount_factor zcW (.num 0) (.num 1) cubicInterp
      = .error typeError := by
  have h : zcW.get_curve cubicInterp dfKind = Except.ok none := rfl
  simp [ZCB_curve.get_discount_factor, resolve_t, resolve_T, h]

/-- C9 (amended): for any interpolation method other than linear,
get_curve itself returns None without raising, but get_discount_factor
then fails hard with TypeError by calling the missing interpolator. -/
theorem C9_unsupported_interpolation (c : ZCB_curve) (interpo : String)
    (hni : interpo ≠ linearInterp) (x X : ℝ) (h0 : 0 ≤ x) (hx : x < X) :
    c.get_curve interpo yieldKind = .ok none ∧
    c.get_curve interpo dfKind = .ok none ∧
    c.get_discount_factor (.num x) (.num X) interpo = .error typeError := by
  have hy : c.get_curve interpo yieldKind = .ok none := by
    unfold ZCB_curve.get_curve
    rw [if_pos (Or.inl rfl), if_neg hni]
  have hd : c.get_curve interpo dfKind = .ok none := by
    unfold ZCB_curve.get_curve
    rw [if_pos (Or.inr rfl), if_neg hni]
  refine ⟨hy, hd, ?_⟩
  simp [ZCB_curve.get_discount_factor, resolve_t, resolve_T, h0, hx, hd]

/-- Witness for C9 (amended): the cubic method on zcW between times 0 and
1. -/
theorem C9_unsupported_interpolation_witness :
    zcW.get_curve cubicInterp yieldKind = .ok none ∧
    zcW.get_curve cubicInterp dfKind = .ok none ∧
    ZCB_curve.get_discount_factor zcW (.num 0) (.num 1) cubicInterp
      = .error typeError :=
  C9_unsupported_interpolation zcW cubicInterp (by decide) 0 1 (by norm_num)
    (by norm_num)

/-- C10: with a nonnegative numeric t and a date-string T, both
get_discount_factor and get_forward_rate hit the comparison against the
variable tdt, which was assigned only in the branch for a date-string t,
and raise UnboundLocalError instead of computing a result. -/
theorem C10_unbound_local (c : ZCB_curve) (x : ℝ) (D : ℤ) (interpo : String)
    (comp : ℝ) (h0 : 0 ≤ x) :
    c.get_discount_factor (.num x) (.date D) interpo
      = .error unboundLocalError ∧
    c.get_forward_rate (.num x) (.date D) interpo comp
      = .error unboundLocalError := by
  constructor
  · simp [ZCB_curve.get_discount_factor, resolve_t, resolve_T, h0]
  · simp [ZCB_curve.get_forward_rate, resolve_t, resolve_T, h0]

/-- Witness for C10: numeric t = 0 with a date-string T on zcW. -/
theorem C10_unbound_local_witness :
    ZCB_curve.get_discount_factor zcW (.num 0) (.date 5) linearInterp
      = .error unboundLocalError ∧
    ZCB_curve.get_forward_rate zcW (.num 0) (.date 5) linearInterp (1/2)
      = .error unboundLocalError :=
  C10_unbound_local zcW 0 5 linearInterp (1/2) (by norm_num)

end

